import Mathlib

/-!
Verification of the MachineKit RTAPI task-runtime core.

Shallow embedding of `src/rtapi/linux_rtapi.c` (primary flavor) and of
`src/rtapi/rt-preempt.c` (the rt-preempt flavor, where it differs), as plain
Lean functions over explicit state.  Environment effects (malloc success,
OS scheduler answers, the monotonic clock, thread creation) are passed in as
parameters; pointers that may be NULL are `Option`; C machine integers are
Nat/Int (no overflow is exercised by any statement below; domain notes are on
the individual definitions).
-/

/-! ## Constants (linux_rtapi.c lines 36-45, errno values) -/

def MODULE_MAGIC : Nat := 30812

def TASK_MAGIC : Nat := 21979

def MAX_TASKS : Nat := 64

def MAX_MODULES : Nat := 64

def MODULE_OFFSET : Nat := 32768

def EINVAL : Int := 22

def ENOMEM : Int := 12

def EMFILE : Int := 24

def ENOSYS : Int := 38

/-! ## Data model -/

/-- Embeds `struct timespec`.  `tv_nsec` is a C `long`; every value the code
produces from `clock_gettime` or `rtapi_advance_time` is nonnegative, so it is
carried as a `Nat`. -/
structure Timespec where
  tv_sec : Int
  tv_nsec : Nat
deriving DecidableEq

/-- Embeds `task_data` (the fields of the shared task descriptor that
`linux_rtapi.c` reads or writes).  Function and data pointers (`taskcode`,
`arg`) are opaque identifiers; `stackaddr` and `thread` are `none` when the
corresponding C field is NULL / was never written. -/
structure TaskData where
  magic : Nat
  name : String
  owner : Int
  taskcode : Nat
  arg : Nat
  prio : Int
  cpu : Int
  stacksize : Nat
  stackaddr : Option Nat
  uses_fp : Int
  period : Nat
  ratio : Nat
  thread : Option Nat
  destroyed : Nat
  deleted : Nat
  next_time : Timespec
  failures : Nat
  deadline_scheduling : Bool
  minfault_base : Nat
  majfault_base : Nat
deriving DecidableEq

/-- The all-zero task descriptor: the content of a slot of the static
`task_array` before anything is written to it (static storage is
zero-initialized in C). -/
def TaskData.zero : TaskData :=
  { magic := 0, name := "", owner := 0, taskcode := 0, arg := 0, prio := 0,
    cpu := 0, stacksize := 0, stackaddr := none, uses_fp := 0, period := 0,
    ratio := 0, thread := none, destroyed := 0, deleted := 0,
    next_time := ⟨0, 0⟩, failures := 0, deadline_scheduling := false,
    minfault_base := 0, majfault_base := 0 }

/-- Module state as used by rt-preempt.c (`NO_MODULE` / `REALTIME` from the
shared header). -/
inductive ModState where
  | NO_MODULE
  | REALTIME
deriving DecidableEq

/-- Embeds `module_data`: `magic` is the field linux_rtapi.c uses, `state` and
`name` are the fields rt-preempt.c uses; both files share the one struct. -/
structure ModuleData where
  magic : Nat
  state : ModState
  name : String
deriving DecidableEq

/-- Zero-initialized module slot. -/
def ModuleData.zero : ModuleData :=
  { magic := 0, state := ModState.NO_MODULE, name := "" }

/-- The zero-initialized static `task_array` (64 slots). -/
def task_array_zero : Array TaskData := mkArray MAX_TASKS TaskData.zero

/-- The zero-initialized static `module_array` (64 slots). -/
def module_array_zero : Array ModuleData := mkArray MAX_MODULES ModuleData.zero

/-! ## rtapi_advance_time (linux_rtapi.c lines 95-105)

The C loop runs while `ns > 1000000000`, subtracting one second per step; each
step strictly decreases `ns`, so `ns` itself bounds the step count and serves
as structural fuel. -/

def carry_loop : Nat → Nat → Nat → Nat × Nat
  | 0, ns, s => (ns, s)
  | fuel + 1, ns, s =>
    if ns > 1000000000 then carry_loop fuel (ns - 1000000000) (s + 1) else (ns, s)

/-- Embeds `rtapi_advance_time(tv, ns, s)`: `ns += tv->tv_nsec`, then the
carry loop, then `tv->tv_nsec = ns; tv->tv_sec += s`. -/
def rtapi_advance_time (tv : Timespec) (ns s : Nat) : Timespec :=
  let ns0 := ns + tv.tv_nsec
  let p := carry_loop ns0 ns0 s
  { tv_sec := tv.tv_sec + (p.2 : Int), tv_nsec := p.1 }

/-! ## Module registry (linux_rtapi.c lines 158-187) -/

/-- The scan loop of `rtapi_init`: `for (n = 0; n < MAX_MODULES; n++)` taking
the first slot whose magic differs from `MODULE_MAGIC`; the result is
`n + MODULE_OFFSET` with the magic set, or `-ENOMEM` (the initial value of
`result`) if the loop finishes without a break.  Fuel `MAX_MODULES + 1`
strictly exceeds the iteration count. -/
def rtapi_init_scan (marr : Array ModuleData) : Nat → Nat → Int × Array ModuleData
  | 0, _ => (-ENOMEM, marr)
  | fuel + 1, n =>
    if n < MAX_MODULES then
      if (marr.getD n ModuleData.zero).magic ≠ MODULE_MAGIC then
        (((n : Int) + (MODULE_OFFSET : Int)),
         marr.setD n { marr.getD n ModuleData.zero with magic := MODULE_MAGIC })
      else rtapi_init_scan marr fuel (n + 1)
    else (-ENOMEM, marr)

/-- Embeds `rtapi_init` (linux flavor): linear scan under the array mutex. -/
def rtapi_init (marr : Array ModuleData) : Int × Array ModuleData :=
  rtapi_init_scan marr (MAX_MODULES + 1) 0

/-- Embeds `rtapi_exit`: bounds-checks `id - MODULE_OFFSET` and clears the
slot magic.  There is no magic-tag check: any in-range handle succeeds. -/
def rtapi_exit (id : Int) (marr : Array ModuleData) : Int × Array ModuleData :=
  let n : Int := id - (MODULE_OFFSET : Int)
  if n < 0 ∨ (MAX_MODULES : Int) ≤ n then (-1, marr)
  else (0, marr.setD n.toNat { marr.getD n.toNat ModuleData.zero with magic := 0 })

/-! ## rt-preempt module registry (rt-preempt.c lines 70-124)

`RTAPI_MAX_MODULES` comes from a header outside this repository; the embedding
takes it as the parameter `mm`.  Slots are numbered 1..mm. -/

/-- The scan loop of `_rtapi_init`:
`while ((n <= RTAPI_MAX_MODULES) && (module_array[n].state != NO_MODULE)) n++`. -/
def _rtapi_init_scan (marr : Array ModuleData) (mm : Nat) : Nat → Nat → Nat
  | 0, n => n
  | fuel + 1, n =>
    if n ≤ mm ∧ (marr.getD n ModuleData.zero).state ≠ ModState.NO_MODULE then
      _rtapi_init_scan marr mm fuel (n + 1)
    else n

/-- Embeds `_rtapi_init` (rt-preempt flavor): scan from slot 1; full table
gives `-EMFILE`; otherwise store `REALTIME` state and the (possibly
synthesized) name, bump `ul_module_count`, return `n + MODULE_OFFSET`.
The `%03d` of the synthesized name is elided (no statement concerns it). -/
def _rtapi_init (mm : Nat) (modname : Option String)
    (marr : Array ModuleData) (ul_module_count : Nat) :
    Int × Array ModuleData × Nat :=
  let n := _rtapi_init_scan marr mm (mm + 1) 1
  if n > mm then (-EMFILE, marr, ul_module_count)
  else
    let module_id : Int := (n : Int) + (MODULE_OFFSET : Int)
    let nm := match modname with
      | some s => s
      | none => "ULMOD" ++ toString module_id
    (module_id,
     marr.setD n { marr.getD n ModuleData.zero with
                     state := ModState.REALTIME, name := nm },
     ul_module_count + 1)

/-! ## Clock period (linux_rtapi.c lines 189-208) -/

/-- Embeds `rtapi_clock_set_period`.  `res_nsec` is the `tv_nsec` of the
`clock_getres(CLOCK_MONOTONIC)` answer (positive on any real system); `st` is
the current value of the static `period`.  Returns (return value, new stored
period).  Values stay far below `INT_MAX` for every input considered here, so
no int truncation is modelled. -/
def rtapi_clock_set_period (res_nsec : Nat) (st : Nat) (nsecs : Nat) :
    Int × Nat :=
  if nsecs = 0 then ((st : Int), st)
  else if st ≠ 0 then (-EINVAL, st)
  else
    let p := (nsecs / res_nsec) * res_nsec
    let p := if p < 1 then res_nsec else p
    ((p : Int), p)

/-! ## Task admission (linux_rtapi.c lines 210-272) -/

/-- Outcome of `rtapi_task_new`: the returned id, or an errno together with
whether the error path executed `free(stackaddr)`. -/
inductive NewRes where
  | err (code : Int) (stackFreed : Bool)
  | ok (id : Nat)
deriving DecidableEq

/-- The slot-search loop of `rtapi_task_new`:
`n = 0; while ((n < MAX_TASKS) && (task_array[n].magic == TASK_MAGIC)) n++`.
Fuel `MAX_TASKS + 1` strictly exceeds the iteration count. -/
def task_slot_scan (arr : Array TaskData) : Nat → Nat → Nat
  | 0, n => n
  | fuel + 1, n =>
    if n < MAX_TASKS ∧ (arr.getD n TaskData.zero).magic = TASK_MAGIC then
      task_slot_scan arr fuel (n + 1)
    else n

/-- Embeds `rtapi_task_new`.  `mallocOk` is the environment's answer to the
stack `malloc`; `lowest`/`highest` are the OS answers to
`sched_get_priority_min`/`_max(SCHED_FIFO)`.  Order of effects follows the
source: clamp stack size, allocate stack, reserve slot (magic set under the
mutex), validate priority (on violation free the stack and return `-EINVAL`
with the magic still set, exactly as the code does), then record the fields.
`strncpy` truncation of the name to the fixed buffer is elided. -/
def rtapi_task_new (mallocOk : Bool) (lowest highest : Int)
    (taskcode : Nat) (arg : Nat) (prio : Int) (owner : Int)
    (stacksize : Nat) (uses_fp : Int) (name : String) (cpu_id : Int)
    (arr : Array TaskData) : NewRes × Array TaskData :=
  let stacksize := max stacksize 16384
  if ¬ mallocOk then (NewRes.err (-ENOMEM) false, arr)
  else
    let n := task_slot_scan arr (MAX_TASKS + 1) 0
    if n = MAX_TASKS then (NewRes.err (-ENOMEM) true, arr)
    else
      let arr1 := arr.setD n { arr.getD n TaskData.zero with magic := TASK_MAGIC }
      if prio < lowest ∨ prio > highest then
        (NewRes.err (-EINVAL) true, arr1)
      else
        let t0 := arr1.getD n TaskData.zero
        (NewRes.ok n,
         arr1.setD n { t0 with
           owner := owner, arg := arg, stacksize := stacksize,
           stackaddr := some 1, destroyed := 0, taskcode := taskcode,
           prio := prio, uses_fp := uses_fp, cpu := cpu_id, name := name })

/-! ## Task teardown (linux_rtapi.c lines 274-304) -/

/-- Result of `rtapi_task_delete`: return value, updated array, whether
`pthread_join` was attempted, and the value of the `thread` field at the join
(`none` = the field was never written by a `pthread_create`). -/
structure DeleteOut where
  ret : Int
  arr : Array TaskData
  joinAttempted : Bool
  joinTarget : Option Nat
deriving DecidableEq

/-- Embeds `rtapi_task_delete`: bounds and magic checks, then
`if (!task->deleted) { task->deleted = 1; pthread_join(task->thread, ..); }`,
free the stack, clear the magic. -/
def rtapi_task_delete (id : Int) (arr : Array TaskData) : DeleteOut :=
  if id < 0 ∨ (MAX_TASKS : Int) ≤ id then ⟨-EINVAL, arr, false, none⟩
  else
    let n := id.toNat
    let task := arr.getD n TaskData.zero
    if task.magic ≠ TASK_MAGIC then ⟨-EINVAL, arr, false, none⟩
    else
      let joined := task.deleted = 0
      let t1 := if task.deleted = 0 then { task with deleted := 1 } else task
      let t2 := { t1 with stackaddr := none, magic := 0 }
      ⟨0, arr.setD n t2, joined, if joined then task.thread else none⟩

/-! ## Task start and the worker's init phase
(linux_rtapi.c lines 453-542) -/

/-- Embeds `rtapi_task_start` up to and around `pthread_create`.  `tick` is
the static `period`; `createOk` is the environment's answer to
`pthread_create`; `workerInitFails` says whether the worker's init phase
(affinity or scheduling-policy setup) failed, in which case the worker sets
`deleted` before opening the barrier and the starter reports `-ENOMEM`.
The worker's own re-clamp of the period is the identity here because it uses
the same `tick`; its seeding of `next_time` happens after the barrier and is
modelled separately by `realtime_thread_setup`. -/
def rtapi_task_start (tick : Nat) (createOk workerInitFails : Bool)
    (id : Int) (period_nsec : Nat) (arr : Array TaskData) :
    Int × Array TaskData :=
  if id < 0 ∨ (MAX_TASKS : Int) ≤ id then (-EINVAL, arr)
  else
    let n := id.toNat
    let task := arr.getD n TaskData.zero
    if task.magic ≠ TASK_MAGIC then (-EINVAL, arr)
    else
      let p := if period_nsec < tick then tick else period_nsec
      let t1 := { task with
        period := p, ratio := p / tick, deleted := 0, thread := some (n + 1) }
      if ¬ createOk then (-ENOMEM, arr.setD n { task with
        period := p, ratio := p / tick, deleted := 0 })
      else if workerInitFails then (-ENOMEM, arr.setD n { t1 with deleted := 1 })
      else (0, arr.setD n t1)

/-- Embeds the init phase of `realtime_thread` (lines 453-479): bind the
thread-local task pointer (implicit), clamp the period to the tick, compute
the ratio, set affinity and scheduling policy (success flags from the
environment), and on success seed `next_time = now + period`; on failure set
`deleted`.  Pagefault-baseline reset touches only `minfault_base` /
`majfault_base` and is elided from the statements below. -/
def realtime_thread_setup (tick : Nat) (affinityOk prioOk : Bool)
    (now : Timespec) (t : TaskData) : TaskData :=
  let t := if t.period < tick then { t with period := tick } else t
  let t := { t with ratio := t.period / tick }
  if ¬ affinityOk ∨ ¬ prioOk then { t with deleted := 1 }
  else { t with next_time := rtapi_advance_time now t.period 0 }

/-! ## Stop / pause / resume / set_period (linux_rtapi.c lines 544-610) -/

/-- Embeds `rtapi_task_stop`: validate, set `destroyed = 1`, return 0.
No join, no other field is written. -/
def rtapi_task_stop (id : Int) (arr : Array TaskData) : Int × Array TaskData :=
  if id < 0 ∨ (MAX_TASKS : Int) ≤ id then (-EINVAL, arr)
  else
    let n := id.toNat
    let task := arr.getD n TaskData.zero
    if task.magic ≠ TASK_MAGIC then (-EINVAL, arr)
    else (0, arr.setD n { task with destroyed := 1 })

/-- Embeds `rtapi_task_pause`: validate the handle, then `-ENOSYS`. -/
def rtapi_task_pause (id : Int) (arr : Array TaskData) : Int :=
  if id < 0 ∨ (MAX_TASKS : Int) ≤ id then -EINVAL
  else if (arr.getD id.toNat TaskData.zero).magic ≠ TASK_MAGIC then -EINVAL
  else -ENOSYS

/-- Embeds `rtapi_task_set_period`: validate the handle, then
`task->period = period_nsec` with no clamping and no other write. -/
def rtapi_task_set_period (id : Int) (period_nsec : Nat)
    (arr : Array TaskData) : Int × Array TaskData :=
  if id < 0 ∨ (MAX_TASKS : Int) ≤ id then (-EINVAL, arr)
  else
    let n := id.toNat
    let task := arr.getD n TaskData.zero
    if task.magic ≠ TASK_MAGIC then (-EINVAL, arr)
    else (0, arr.setD n { task with period := period_nsec })

/-! ## The periodic wait (linux_rtapi.c lines 612-652) -/

/-- Message severities used by the wait path. -/
inductive MsgLevel where
  | NONE
  | ERR
  | WARN
deriving DecidableEq

/-- Outcome of one `rtapi_wait` call. -/
inductive WaitOutcome where
  | nullDeref
  | threadExit
  | ret (code : Int) (t : TaskData) (msg : MsgLevel)
deriving DecidableEq

/-- The strict `now > deadline` comparison of lines 626-628. -/
def ts_after (now deadline : Timespec) : Prop :=
  now.tv_sec > deadline.tv_sec ∨
    (now.tv_sec = deadline.tv_sec ∧ now.tv_nsec > deadline.tv_nsec)

instance (now deadline : Timespec) : Decidable (ts_after now deadline) := by
  unfold ts_after
  infer_instance

/-- Embeds `rtapi_wait`.  `tls` is what `rtapi_this_task()` returns
(`pthread_getspecific`: `none` on a thread where no worker ever bound a task
pointer; the C code dereferences it with no check, so `none` is a null
dereference).  `now` is the `clock_gettime` reading taken after the absolute
sleep; the sleep itself (either flavor, line 620-623) changes no modelled
state.  The deadline comparison runs AGAINST the already advanced
`next_time`, exactly as in the source (advance on line 624, compare on lines
626-628).  Message text and the pagefault count inside it are elided; the
chosen severity is returned. -/
def rtapi_wait (tls : Option TaskData) (now : Timespec) : WaitOutcome :=
  match tls with
  | none => WaitOutcome.nullDeref
  | some task =>
    if task.deleted ≠ 0 then WaitOutcome.threadExit
    else
      let task := { task with next_time := rtapi_advance_time task.next_time task.period 0 }
      if ts_after now task.next_time then
        let task := { task with failures := task.failures + 1 }
        let msg := if task.failures = 1 then MsgLevel.ERR
          else if task.failures < 10 then MsgLevel.WARN
          else MsgLevel.NONE
        WaitOutcome.ret 0 task msg
      else WaitOutcome.ret 0 task MsgLevel.NONE

/-! ## Concrete states used by witnesses and counterexamples -/

/-- A task table whose slot 0 holds a valid (magic-tagged) task and all other
slots are free. -/
def valid0_arr : Array TaskData :=
  task_array_zero.setD 0 { TaskData.zero with magic := TASK_MAGIC }

/-- A completely full module table for the linux flavor (all magics set). -/
def module_array_full : Array ModuleData :=
  mkArray MAX_MODULES { ModuleData.zero with magic := MODULE_MAGIC }

/-- A full rt-preempt module table for maximum 2 modules: slots 1 and 2 (and
the unused slot 0) all hold `REALTIME` state. -/
def mod_full_small : Array ModuleData :=
  mkArray 3 { ModuleData.zero with state := ModState.REALTIME }

/-! ## Helper lemmas about array update -/

theorem size_setD' {α : Type} (a : Array α) (i : Nat) (v : α) :
    (a.setD i v).size = a.size :=
  Array.size_setD a i v

theorem setD_eq_set {α : Type} (a : Array α) (i : Nat) (h : i < a.size)
    (v : α) : a.setD i v = a.set ⟨i, h⟩ v := by
  unfold Array.setD
  rw [dif_pos h]

theorem getD_setD_self {α : Type} (a : Array α) (i : Nat) (h : i < a.size)
    (v d : α) : (a.setD i v).getD i d = v := by
  rw [setD_eq_set a i h v]
  have hs : i < (a.set ⟨i, h⟩ v).size := by rw [Array.size_set]; exact h
  unfold Array.getD
  rw [dif_pos hs]
  rw [Array.get_eq_getElem, Array.getElem_set]
  simp

theorem getD_setD_ne {α : Type} (a : Array α) (i j : Nat) (hij : i ≠ j)
    (v d : α) : (a.setD i v).getD j d = a.getD j d := by
  by_cases hi : i < a.size
  · rw [setD_eq_set a i hi v]
    by_cases hj : j < a.size
    · have hj' : j < (a.set ⟨i, hi⟩ v).size := by rw [Array.size_set]; exact hj
      unfold Array.getD
      rw [dif_pos hj', dif_pos hj]
      rw [Array.get_eq_getElem, Array.get_eq_getElem, Array.getElem_set]
      simp [hij]
    · have hj' : ¬ j < (a.set ⟨i, hi⟩ v).size := by rw [Array.size_set]; exact hj
      unfold Array.getD
      rw [dif_neg hj', dif_neg hj]
  · have hset : a.setD i v = a := by
      unfold Array.setD
      rw [dif_neg hi]
    rw [hset]

theorem setD_getD_self {α : Type} (a : Array α) (i : Nat) (d : α)
    (h : i < a.size) : a.setD i (a.getD i d) = a := by
  rw [setD_eq_set a i h]
  apply Array.ext
  · rw [Array.size_set]
  · intro k hk1 hk2
    rw [Array.getElem_set]
    split
    · next he =>
        subst he
        simp [Array.getD, h]
    · rfl

theorem setD_of_getD_eq {α : Type} (a : Array α) (i : Nat) (d v : α)
    (h : i < a.size) (hv : a.getD i d = v) : a.setD i v = a := by
  rw [← hv]
  exact setD_getD_self a i d h

/-! ## Lemmas about the module-slot scans -/

theorem rtapi_init_scan_all_full (marr : Array ModuleData) :
    ∀ fuel n, (∀ m, m < MAX_MODULES →
        (marr.getD m ModuleData.zero).magic = MODULE_MAGIC) →
      rtapi_init_scan marr fuel n = (-ENOMEM, marr) := by
  intro fuel
  induction fuel with
  | zero => intro n _; rfl
  | succ fuel ih =>
    intro n hfull
    unfold rtapi_init_scan
    by_cases hn : n < MAX_MODULES
    · rw [if_pos hn]
      rw [if_neg]
      · exact ih (n + 1) hfull
      · intro hne
        exact hne (hfull n hn)
    · rw [if_neg hn]

theorem rtapi_init_scan_lb (marr : Array ModuleData) :
    ∀ fuel n, (rtapi_init_scan marr fuel n).1 = -ENOMEM ∨
      (MODULE_OFFSET : Int) ≤ (rtapi_init_scan marr fuel n).1 := by
  intro fuel
  induction fuel with
  | zero => intro n; left; rfl
  | succ fuel ih =>
    intro n
    unfold rtapi_init_scan
    by_cases hn : n < MAX_MODULES
    · rw [if_pos hn]
      by_cases hm : (marr.getD n ModuleData.zero).magic ≠ MODULE_MAGIC
      · rw [if_pos hm]
        right
        have : (0 : Int) ≤ (n : Int) := Int.ofNat_nonneg n
        omega
      · rw [if_neg hm]
        exact ih (n + 1)
    · rw [if_neg hn]
      left
      rfl

theorem _rtapi_init_scan_ge (marr : Array ModuleData) (mm : Nat) :
    ∀ fuel n, n ≤ _rtapi_init_scan marr mm fuel n := by
  intro fuel
  induction fuel with
  | zero => intro n; exact Nat.le_refl n
  | succ fuel ih =>
    intro n
    unfold _rtapi_init_scan
    by_cases hc : n ≤ mm ∧ (marr.getD n ModuleData.zero).state ≠ ModState.NO_MODULE
    · rw [if_pos hc]
      exact Nat.le_trans (Nat.le_succ n) (ih (n + 1))
    · rw [if_neg hc]

theorem _rtapi_init_scan_all_full (marr : Array ModuleData) (mm : Nat)
    (hfull : ∀ m, m < mm + 1 → 1 ≤ m →
      (marr.getD m ModuleData.zero).state ≠ ModState.NO_MODULE) :
    ∀ fuel n, 1 ≤ n → n ≤ mm + 1 → mm + 1 - n ≤ fuel →
      _rtapi_init_scan marr mm fuel n = mm + 1 := by
  intro fuel
  induction fuel with
  | zero =>
    intro n h1 h2 h3
    have : n = mm + 1 := by omega
    subst this
    rfl
  | succ fuel ih =>
    intro n h1 h2 h3
    unfold _rtapi_init_scan
    by_cases hn : n ≤ mm
    · rw [if_pos ⟨hn, hfull n (by omega) h1⟩]
      exact ih (n + 1) (by omega) (by omega) (by omega)
    · rw [if_neg]
      · omega
      · intro hc
        exact hn hc.1

theorem rtapi_init_scan_first_free (marr : Array ModuleData) (m : Nat)
    (hm : m < MAX_MODULES)
    (hfree : (marr.getD m ModuleData.zero).magic ≠ MODULE_MAGIC) :
    ∀ fuel n, n ≤ m →
      (∀ k, n ≤ k → k < m →
        (marr.getD k ModuleData.zero).magic = MODULE_MAGIC) →
      m - n < fuel →
      rtapi_init_scan marr fuel n =
        (((m : Int) + (MODULE_OFFSET : Int)),
         marr.setD m
           { marr.getD m ModuleData.zero with magic := MODULE_MAGIC }) := by
  intro fuel
  induction fuel with
  | zero =>
    intro n _ _ h3
    omega
  | succ fuel ih =>
    intro n h1 h2 h3
    unfold rtapi_init_scan
    by_cases hnm : n = m
    · subst hnm
      rw [if_pos hm, if_pos hfree]
    · have hlt : n < m := by omega
      rw [if_pos (by omega),
        if_neg (not_not_intro (h2 n (Nat.le_refl n) hlt))]
      exact ih (n + 1) (by omega)
        (fun k hk1 hk2 => h2 k (by omega) hk2) (by omega)

theorem _rtapi_init_scan_first_free (marr : Array ModuleData) (mm m : Nat)
    (hm_le : m ≤ mm)
    (hfree : (marr.getD m ModuleData.zero).state = ModState.NO_MODULE) :
    ∀ fuel n, n ≤ m →
      (∀ k, n ≤ k → k < m →
        (marr.getD k ModuleData.zero).state ≠ ModState.NO_MODULE) →
      m - n ≤ fuel →
      _rtapi_init_scan marr mm fuel n = m := by
  intro fuel
  induction fuel with
  | zero =>
    intro n h1 h2 h3
    have : n = m := by omega
    subst this
    rfl
  | succ fuel ih =>
    intro n h1 h2 h3
    unfold _rtapi_init_scan
    by_cases hnm : n = m
    · subst hnm
      rw [if_neg (fun hc => hc.2 hfree)]
    · have hlt : n < m := by omega
      rw [if_pos ⟨by omega, h2 n (Nat.le_refl n) hlt⟩]
      exact ih (n + 1) (by omega)
        (fun k hk1 hk2 => h2 k (by omega) hk2) (by omega)

/-! ## Equation lemmas for the task operations -/

theorem rtapi_task_stop_valid_eq (arr : Array TaskData) (id : Int)
    (h0 : 0 ≤ id) (h1 : id < (MAX_TASKS : Int))
    (hm : (arr.getD id.toNat TaskData.zero).magic = TASK_MAGIC) :
    rtapi_task_stop id arr =
      (0, arr.setD id.toNat
        { arr.getD id.toNat TaskData.zero with destroyed := 1 }) := by
  simp only [rtapi_task_stop]
  rw [if_neg (by omega)]
  rw [if_neg (not_not_intro hm)]

theorem rtapi_task_stop_invalid_eq (arr : Array TaskData) (id : Int)
    (h : id < 0 ∨ (MAX_TASKS : Int) ≤ id ∨
      (arr.getD id.toNat TaskData.zero).magic ≠ TASK_MAGIC) :
    rtapi_task_stop id arr = (-EINVAL, arr) := by
  rcases h with h | h | h
  · simp only [rtapi_task_stop]
    rw [if_pos (Or.inl h)]
  · simp only [rtapi_task_stop]
    rw [if_pos (Or.inr h)]
  · by_cases hb : id < 0 ∨ (MAX_TASKS : Int) ≤ id
    · simp only [rtapi_task_stop]
      rw [if_pos hb]
    · simp only [rtapi_task_stop]
      rw [if_neg hb, if_pos h]

theorem rtapi_task_set_period_valid_eq (arr : Array TaskData) (id : Int)
    (p : Nat) (h0 : 0 ≤ id) (h1 : id < (MAX_TASKS : Int))
    (hm : (arr.getD id.toNat TaskData.zero).magic = TASK_MAGIC) :
    rtapi_task_set_period id p arr =
      (0, arr.setD id.toNat
        { arr.getD id.toNat TaskData.zero with period := p }) := by
  simp only [rtapi_task_set_period]
  rw [if_neg (by omega)]
  rw [if_neg (not_not_intro hm)]

theorem rtapi_task_set_period_invalid_eq (arr : Array TaskData) (id : Int)
    (p : Nat) (h : id < 0 ∨ (MAX_TASKS : Int) ≤ id ∨
      (arr.getD id.toNat TaskData.zero).magic ≠ TASK_MAGIC) :
    rtapi_task_set_period id p arr = (-EINVAL, arr) := by
  rcases h with h | h | h
  · simp only [rtapi_task_set_period]
    rw [if_pos (Or.inl h)]
  · simp only [rtapi_task_set_period]
    rw [if_pos (Or.inr h)]
  · by_cases hb : id < 0 ∨ (MAX_TASKS : Int) ≤ id
    · simp only [rtapi_task_set_period]
      rw [if_pos hb]
    · simp only [rtapi_task_set_period]
      rw [if_neg hb, if_pos h]

theorem rtapi_task_delete_valid_eq (arr : Array TaskData) (id : Int)
    (h0 : 0 ≤ id) (h1 : id < (MAX_TASKS : Int))
    (hm : (arr.getD id.toNat TaskData.zero).magic = TASK_MAGIC) :
    rtapi_task_delete id arr =
      ⟨0,
       arr.setD id.toNat
         { (if (arr.getD id.toNat TaskData.zero).deleted = 0 then
              { arr.getD id.toNat TaskData.zero with deleted := 1 }
            else arr.getD id.toNat TaskData.zero) with
            stackaddr := none, magic := 0 },
       decide ((arr.getD id.toNat TaskData.zero).deleted = 0),
       if (arr.getD id.toNat TaskData.zero).deleted = 0 then
         (arr.getD id.toNat TaskData.zero).thread
       else none⟩ := by
  simp only [rtapi_task_delete]
  rw [if_neg (by omega)]
  rw [if_neg (not_not_intro hm)]

theorem rtapi_task_delete_invalid_eq (arr : Array TaskData) (id : Int)
    (h : id < 0 ∨ (MAX_TASKS : Int) ≤ id ∨
      (arr.getD id.toNat TaskData.zero).magic ≠ TASK_MAGIC) :
    rtapi_task_delete id arr = ⟨-EINVAL, arr, false, none⟩ := by
  rcases h with h | h | h
  · simp only [rtapi_task_delete]
    rw [if_pos (Or.inl h)]
  · simp only [rtapi_task_delete]
    rw [if_pos (Or.inr h)]
  · by_cases hb : id < 0 ∨ (MAX_TASKS : Int) ≤ id
    · simp only [rtapi_task_delete]
      rw [if_pos hb]
    · simp only [rtapi_task_delete]
      rw [if_neg hb, if_pos h]

theorem rtapi_task_start_invalid_eq (tick p : Nat) (cOk wF : Bool)
    (arr : Array TaskData) (id : Int)
    (h : id < 0 ∨ (MAX_TASKS : Int) ≤ id ∨
      (arr.getD id.toNat TaskData.zero).magic ≠ TASK_MAGIC) :
    rtapi_task_start tick cOk wF id p arr = (-EINVAL, arr) := by
  rcases h with h | h | h
  · simp only [rtapi_task_start]
    rw [if_pos (Or.inl h)]
  · simp only [rtapi_task_start]
    rw [if_pos (Or.inr h)]
  · by_cases hb : id < 0 ∨ (MAX_TASKS : Int) ≤ id
    · simp only [rtapi_task_start]
      rw [if_pos hb]
    · simp only [rtapi_task_start]
      rw [if_neg hb, if_pos h]

theorem task_index_lt (arr : Array TaskData) (id : Int)
    (hsz : arr.size = MAX_TASKS) (h0 : 0 ≤ id) (h1 : id < (MAX_TASKS : Int)) :
    id.toNat < arr.size := by
  rw [hsz]
  omega

theorem delete_clears_magic (arr : Array TaskData) (id : Int)
    (hsz : arr.size = MAX_TASKS) (h0 : 0 ≤ id) (h1 : id < (MAX_TASKS : Int))
    (hm : (arr.getD id.toNat TaskData.zero).magic = TASK_MAGIC) :
    ((rtapi_task_delete id arr).arr.getD id.toNat TaskData.zero).magic = 0 := by
  rw [rtapi_task_delete_valid_eq arr id h0 h1 hm]
  rw [getD_setD_self _ _ (task_index_lt arr id hsz h0 h1)]

theorem rtapi_exit_in_range_eq (marr : Array ModuleData) (mid : Int)
    (hlo : (MODULE_OFFSET : Int) ≤ mid)
    (hhi : mid < (MODULE_OFFSET : Int) + (MAX_MODULES : Int)) :
    rtapi_exit mid marr =
      (0, marr.setD (mid - (MODULE_OFFSET : Int)).toNat
        { marr.getD (mid - (MODULE_OFFSET : Int)).toNat ModuleData.zero with
          magic := 0 }) := by
  simp only [rtapi_exit]
  rw [if_neg (by omega)]

theorem rtapi_exit_out_of_range_eq (marr : Array ModuleData) (mid : Int)
    (h : mid < (MODULE_OFFSET : Int) ∨
      (MODULE_OFFSET : Int) + (MAX_MODULES : Int) ≤ mid) :
    rtapi_exit mid marr = (-1, marr) := by
  simp only [rtapi_exit]
  rw [if_pos (by omega)]

/-! ## Claims -/

/-- C1: the claim FAILS on the code (code bug).  Concretely: on the empty
task table, with FIFO priority bounds [1, 99], a `rtapi_task_new` call
requesting priority 0 returns `-EINVAL` and frees the stack, but the task
slot reserved in step 2 keeps its `TASK_MAGIC` tag — the slot is NOT
released, so the next `rtapi_task_new` obtains slot 1, not slot 0.  The
error path (lines 245-251) performs `free(stackaddr)` but never clears
`task->magic`. -/
theorem task_new_invalid_prio_leaks_slot :
    (rtapi_task_new true 1 99 7 0 0 0 16384 0 "t" (-1) task_array_zero).1 =
      NewRes.err (-EINVAL) true ∧
    (((rtapi_task_new true 1 99 7 0 0 0 16384 0 "t" (-1) task_array_zero).2).getD 0
      TaskData.zero).magic = TASK_MAGIC ∧
    TASK_MAGIC ≠ 0 ∧
    (rtapi_task_new true 1 99 7 0 50 0 16384 0 "u" (-1)
      (rtapi_task_new true 1 99 7 0 0 0 16384 0 "t" (-1) task_array_zero).2).1 =
      NewRes.ok 1 := by decide

/-- C2: the claim FAILS on the code (code bug, also flagged by the spec's own
design notes).  `rtapi_wait` advances `next_time` by the period (line 624)
BEFORE the miss test (lines 626-628), so the comparison runs against the
post-advance deadline.  Concretely: a task with period 1 ms whose pre-advance
deadline was 10 s sees `now` = 10 s + 0.5 ms.  `now` is strictly after the
pre-advance deadline (first conjunct), yet the code registers no miss: the
failure counter stays 0 and no message is emitted (second conjunct). -/
theorem wait_compares_post_advance_deadline :
    ts_after ⟨10, 500000⟩ ⟨10, 0⟩ ∧
    rtapi_wait (some { TaskData.zero with
        magic := TASK_MAGIC, period := 1000000, next_time := ⟨10, 0⟩ })
      ⟨10, 500000⟩ =
      WaitOutcome.ret 0 { TaskData.zero with
        magic := TASK_MAGIC, period := 1000000, next_time := ⟨10, 1000000⟩ }
        MsgLevel.NONE := by decide

/-- C4: the claim FAILS on the code (code bug).  A task created by
`rtapi_task_new` into a fresh (zero-initialized) slot and never passed to
`rtapi_task_start` has `deleted == 0` (`task_new` never writes that field),
so `rtapi_task_delete` takes the `!task->deleted` branch and calls
`pthread_join` on the never-initialized `thread` field (`joinTarget = none`).
The return value is 0 and the slot is cleared, but a join IS attempted,
contrary to the claim and to the spec's thread-existence invariant. -/
theorem delete_never_started_attempts_join :
    (rtapi_task_new true 1 99 7 0 50 0 16384 0 "t" (-1) task_array_zero).1 =
      NewRes.ok 0 ∧
    (rtapi_task_delete 0
      (rtapi_task_new true 1 99 7 0 50 0 16384 0 "t" (-1) task_array_zero).2).ret
      = 0 ∧
    (rtapi_task_delete 0
      (rtapi_task_new true 1 99 7 0 50 0 16384 0 "t" (-1) task_array_zero).2).joinAttempted
      = true ∧
    (rtapi_task_delete 0
      (rtapi_task_new true 1 99 7 0 50 0 16384 0 "t" (-1) task_array_zero).2).joinTarget
      = none ∧
    ((rtapi_task_delete 0
      (rtapi_task_new true 1 99 7 0 50 0 16384 0 "t" (-1) task_array_zero).2).arr.getD 0
      TaskData.zero).magic = 0 ∧
    ((rtapi_task_delete 0
      (rtapi_task_new true 1 99 7 0 50 0 16384 0 "t" (-1) task_array_zero).2).arr.getD 0
      TaskData.zero).stackaddr = none := by decide

/-- C8: the claim FAILS on the code (code bug).  The carry loop runs only
while `ns > 1000000000` (strict), so when the sum lands exactly on the second
boundary the nanosecond field is left at 1000000000, outside [0, 999999999].
Concretely: advancing (0 s, 500000000 ns) by a 500000000 ns period preserves
the numeric value (first conjunct) but leaves `tv_nsec = 1000000000` (second
and third conjuncts) — a timespec that `clock_nanosleep` rejects. -/
theorem advance_time_boundary_no_carry :
    (rtapi_advance_time ⟨0, 500000000⟩ 500000000 0).tv_sec * 1000000000 +
      ((rtapi_advance_time ⟨0, 500000000⟩ 500000000 0).tv_nsec : Int) =
      ((0 : Int) * 1000000000 + 500000000) + 500000000 ∧
    (rtapi_advance_time ⟨0, 500000000⟩ 500000000 0).tv_nsec = 1000000000 ∧
    ¬ (rtapi_advance_time ⟨0, 500000000⟩ 500000000 0).tv_nsec ≤ 999999999 := by
  decide

/-- C10: confirmed.  `rtapi_wait` reads the thread-local task pointer and
immediately dereferences it (`task->deleted`, line 617) with no null check;
on a thread where the worker routine never bound a task the lookup yields
NULL and the call is a null dereference — it does not return an error code
(second conjunct: the outcome is never a normal return). -/
theorem wait_null_tls_derefs (now : Timespec) :
    rtapi_wait none now = WaitOutcome.nullDeref ∧
    ∀ (c : Int) (t : TaskData) (m : MsgLevel),
      rtapi_wait none now ≠ WaitOutcome.ret c t m := by
  constructor
  · rfl
  · intro c t m h
    exact WaitOutcome.noConfusion h

/-- C3 counterexample: the claim as stated is false.  From a reachable state
(clock tick set to 1000000 ns, a task admitted into slot 0), a valid
`rtapi_task_set_period(0, 500000)` succeeds and stores 500000 — a period
strictly below the clock tick — because line 607 writes the field with no
clamp. -/
theorem set_period_below_tick_cex :
    (rtapi_clock_set_period 1 0 1000000).2 = 1000000 ∧
    (rtapi_task_new true 1 99 7 0 50 0 16384 0 "t" (-1) task_array_zero).1 =
      NewRes.ok 0 ∧
    (rtapi_task_set_period 0 500000
      (rtapi_task_new true 1 99 7 0 50 0 16384 0 "t" (-1) task_array_zero).2).1
      = 0 ∧
    ((rtapi_task_set_period 0 500000
      (rtapi_task_new true 1 99 7 0 50 0 16384 0 "t" (-1) task_array_zero).2).2.getD 0
      TaskData.zero).period = 500000 ∧
    500000 < (rtapi_clock_set_period 1 0 1000000).2 := by decide

/-- C3 amended: `rtapi_task_start` and the worker routine do clamp the period
upward to the clock tick (the stored period is at least `tick` after either,
first two conjuncts), but `rtapi_task_set_period` stores the requested period
verbatim with no clamping (third conjunct), so the invariant
period >= clock_tick does not survive a `task_set_period` with a smaller
request. -/
theorem period_clamp_amended (tick p : Nat) (cOk wF aOk pOk : Bool)
    (id : Int) (arr : Array TaskData) (now : Timespec) (t : TaskData)
    (hsz : arr.size = MAX_TASKS) (h0 : 0 ≤ id) (h1 : id < (MAX_TASKS : Int))
    (hm : (arr.getD id.toNat TaskData.zero).magic = TASK_MAGIC) :
    tick ≤ (((rtapi_task_start tick cOk wF id p arr).2).getD id.toNat
      TaskData.zero).period ∧
    tick ≤ (realtime_thread_setup tick aOk pOk now t).period ∧
    ((rtapi_task_set_period id p arr).2.getD id.toNat TaskData.zero).period
      = p := by
  have hlt := task_index_lt arr id hsz h0 h1
  refine ⟨?_, ?_, ?_⟩
  · simp only [rtapi_task_start]
    rw [if_neg (by omega), if_neg (not_not_intro hm)]
    split
    · dsimp only
      rw [getD_setD_self _ _ hlt]
      dsimp only
      split <;> omega
    · split
      · dsimp only
        rw [getD_setD_self _ _ hlt]
        dsimp only
        split <;> omega
      · dsimp only
        rw [getD_setD_self _ _ hlt]
        dsimp only
        split <;> omega
  · simp only [realtime_thread_setup]
    split
    · dsimp only
      split
      · exact Nat.le_refl _
      · omega
    · dsimp only
      split
      · exact Nat.le_refl _
      · omega
  · rw [rtapi_task_set_period_valid_eq arr id p h0 h1 hm]
    dsimp only
    rw [getD_setD_self _ _ hlt]

/-- C3 witness: the amended theorem at tick 1000000 ns, request 500000 ns on
the concrete one-task table. -/
theorem period_clamp_amended_wit :
    1000000 ≤ (((rtapi_task_start 1000000 true false 0 500000 valid0_arr).2).getD 0
      TaskData.zero).period ∧
    ((rtapi_task_set_period 0 500000 valid0_arr).2.getD 0
      TaskData.zero).period = 500000 := by
  have h := period_clamp_amended 1000000 500000 true false true true 0 valid0_arr
    ⟨0, 0⟩ TaskData.zero (by decide) (by decide) (by decide) (by decide)
  exact ⟨h.1, h.2.2⟩

/-- C5 counterexample: the claim as stated is false for module handles.
Concretely: `rtapi_init` on the empty table hands out handle 32768; a first
`rtapi_exit(32768)` releases it; a second `rtapi_exit(32768)` on the
already-released handle returns 0, not `-EINVAL` — `rtapi_exit` only
bounds-checks and never examines the magic tag. -/
theorem second_exit_returns_zero_cex :
    (rtapi_init module_array_zero).1 = 32768 ∧
    (rtapi_exit 32768 (rtapi_init module_array_zero).2).1 = 0 ∧
    (rtapi_exit 32768
      (rtapi_exit 32768 (rtapi_init module_array_zero).2).2).1 = 0 ∧
    (0 : Int) ≠ -EINVAL := by decide

/-- C5 amended: task ids behave as the claim says — a valid id is accepted by
`task_delete` (returns 0), and after that release the same id is rejected
with `-EINVAL` by `task_stop`, `task_set_period`, `task_start` and a second
`task_delete`.  Module handles are NOT: `rtapi_exit` is bounds-checked only,
so an exit on an already-released in-range handle still returns 0 (sixth
conjunct), and an out-of-range module handle yields -1, not `-EINVAL`
(seventh conjunct). -/
theorem handle_lifecycle_amended (arr : Array TaskData) (id : Int)
    (p tick : Nat) (cOk wF : Bool)
    (hsz : arr.size = MAX_TASKS) (h0 : 0 ≤ id) (h1 : id < (MAX_TASKS : Int))
    (hm : (arr.getD id.toNat TaskData.zero).magic = TASK_MAGIC) :
    (rtapi_task_delete id arr).ret = 0 ∧
    rtapi_task_stop id (rtapi_task_delete id arr).arr =
      (-EINVAL, (rtapi_task_delete id arr).arr) ∧
    rtapi_task_set_period id p (rtapi_task_delete id arr).arr =
      (-EINVAL, (rtapi_task_delete id arr).arr) ∧
    rtapi_task_start tick cOk wF id p (rtapi_task_delete id arr).arr =
      (-EINVAL, (rtapi_task_delete id arr).arr) ∧
    (rtapi_task_delete id (rtapi_task_delete id arr).arr).ret = -EINVAL ∧
    (∀ (marr : Array ModuleData) (mid : Int),
      (MODULE_OFFSET : Int) ≤ mid →
      mid < (MODULE_OFFSET : Int) + (MAX_MODULES : Int) →
      (rtapi_exit mid (rtapi_exit mid marr).2).1 = 0) ∧
    (∀ (marr : Array ModuleData) (mid : Int),
      (mid < (MODULE_OFFSET : Int) ∨
        (MODULE_OFFSET : Int) + (MAX_MODULES : Int) ≤ mid) →
      rtapi_exit mid marr = (-1, marr)) := by
  have hmag0 := delete_clears_magic arr id hsz h0 h1 hm
  have hne : ((rtapi_task_delete id arr).arr.getD id.toNat
      TaskData.zero).magic ≠ TASK_MAGIC := by
    rw [hmag0]
    decide
  refine ⟨?_, ?_, ?_, ?_, ?_, ?_, ?_⟩
  · rw [rtapi_task_delete_valid_eq arr id h0 h1 hm]
  · exact rtapi_task_stop_invalid_eq _ id (Or.inr (Or.inr hne))
  · exact rtapi_task_set_period_invalid_eq _ id p (Or.inr (Or.inr hne))
  · exact rtapi_task_start_invalid_eq tick p cOk wF _ id (Or.inr (Or.inr hne))
  · rw [rtapi_task_delete_invalid_eq _ id (Or.inr (Or.inr hne))]
  · intro marr mid hlo hhi
    rw [rtapi_exit_in_range_eq marr mid hlo hhi]
    dsimp only
    rw [rtapi_exit_in_range_eq _ mid hlo hhi]
  · intro marr mid h
    exact rtapi_exit_out_of_range_eq marr mid h

/-- C5 witness: the amended theorem on the concrete one-task table at id 0. -/
theorem handle_lifecycle_amended_wit :
    (rtapi_task_delete 0 valid0_arr).ret = 0 ∧
    rtapi_task_stop 0 (rtapi_task_delete 0 valid0_arr).arr =
      (-EINVAL, (rtapi_task_delete 0 valid0_arr).arr) := by
  have h := handle_lifecycle_amended valid0_arr 0 1000 1000 true false
    (by decide) (by decide) (by decide) (by decide)
  exact ⟨h.1, h.2.1⟩

/-- C9: confirmed.  For a valid task id, `rtapi_task_stop` returns 0 and sets
only the `destroyed` flag to 1 (other slots and other fields untouched); a
second call returns 0 again and leaves the state exactly as after the first
(idempotence); for an out-of-range id or a magic-tag mismatch it returns
`-EINVAL` with the state unchanged. -/
theorem task_stop_idempotent_spec (arr : Array TaskData) (id : Int)
    (hsz : arr.size = MAX_TASKS) (h0 : 0 ≤ id) (h1 : id < (MAX_TASKS : Int))
    (hm : (arr.getD id.toNat TaskData.zero).magic = TASK_MAGIC) :
    (rtapi_task_stop id arr).1 = 0 ∧
    (rtapi_task_stop id arr).2.getD id.toNat TaskData.zero =
      { arr.getD id.toNat TaskData.zero with destroyed := 1 } ∧
    (∀ m, m ≠ id.toNat →
      (rtapi_task_stop id arr).2.getD m TaskData.zero =
        arr.getD m TaskData.zero) ∧
    rtapi_task_stop id ((rtapi_task_stop id arr).2) =
      (0, (rtapi_task_stop id arr).2) ∧
    (∀ (arr2 : Array TaskData) (id2 : Int),
      (id2 < 0 ∨ (MAX_TASKS : Int) ≤ id2 ∨
        (arr2.getD id2.toNat TaskData.zero).magic ≠ TASK_MAGIC) →
      rtapi_task_stop id2 arr2 = (-EINVAL, arr2)) := by
  have hlt := task_index_lt arr id hsz h0 h1
  have heq := rtapi_task_stop_valid_eq arr id h0 h1 hm
  refine ⟨?_, ?_, ?_, ?_, ?_⟩
  · rw [heq]
  · rw [heq]
    dsimp only
    exact getD_setD_self _ _ hlt _ _
  · intro m hmne
    rw [heq]
    dsimp only
    exact getD_setD_ne _ _ _ (fun he => hmne he.symm) _ _
  · rw [heq]
    dsimp only
    have hg2 : (arr.setD id.toNat
        { arr.getD id.toNat TaskData.zero with destroyed := 1 }).getD id.toNat
        TaskData.zero =
        { arr.getD id.toNat TaskData.zero with destroyed := 1 } :=
      getD_setD_self _ _ hlt _ _
    have hm2 : ((arr.setD id.toNat
        { arr.getD id.toNat TaskData.zero with destroyed := 1 }).getD id.toNat
        TaskData.zero).magic = TASK_MAGIC := by
      rw [hg2]
      exact hm
    rw [rtapi_task_stop_valid_eq _ id h0 h1 hm2]
    congr 1
    refine setD_of_getD_eq _ _ TaskData.zero _
      (by rw [Array.size_setD]; exact hlt) ?_
    rw [hg2]
  · intro arr2 id2 h
    exact rtapi_task_stop_invalid_eq arr2 id2 h

/-- C9 witness: the theorem at the concrete one-task table and id 0. -/
theorem task_stop_idempotent_spec_wit :
    (rtapi_task_stop 0 valid0_arr).1 = 0 ∧
    ((rtapi_task_stop 0 valid0_arr).2.getD 0 TaskData.zero).destroyed = 1 := by
  have h := task_stop_idempotent_spec valid0_arr 0
    (by decide) (by decide) (by decide) (by decide)
  exact ⟨h.1, by decide⟩

/-- C6: confirmed.  With a positive clock resolution `r`:
`clock_set_period(0)` returns the stored period (zero if unset) and changes
nothing; a nonzero request while the period is already set returns `-EINVAL`
and changes nothing; the first successful nonzero request stores a value that
is a multiple of `r`, at least `r`, equal to the request rounded DOWN to a
multiple of `r` whenever the request is at least `r` (and within one `r`
below the request), and equal to `r` itself for requests below `r`; the
return value is the stored value.  The hypothesis on the request size records
the int-representable domain of the C `period` variable. -/
theorem clock_set_period_spec (r st n : Nat) (hr : 0 < r)
    (_hn31 : n ≤ 2147483647) :
    rtapi_clock_set_period r st 0 = ((st : Int), st) ∧
    (st ≠ 0 → n ≠ 0 → rtapi_clock_set_period r st n = (-EINVAL, st)) ∧
    (n ≠ 0 →
      (rtapi_clock_set_period r 0 n).1 =
        ((rtapi_clock_set_period r 0 n).2 : Int) ∧
      r ∣ (rtapi_clock_set_period r 0 n).2 ∧
      r ≤ (rtapi_clock_set_period r 0 n).2 ∧
      (r ≤ n → (rtapi_clock_set_period r 0 n).2 = (n / r) * r ∧
        (rtapi_clock_set_period r 0 n).2 ≤ n ∧
        n < (rtapi_clock_set_period r 0 n).2 + r) ∧
      (n < r → (rtapi_clock_set_period r 0 n).2 = r)) := by
  have hne0 : ¬ ((0 : Nat) ≠ 0) := not_not_intro rfl
  refine ⟨?_, ?_, ?_⟩
  · simp [rtapi_clock_set_period]
  · intro hst hn
    simp only [rtapi_clock_set_period]
    rw [if_neg hn, if_pos hst]
  · intro hn
    by_cases hrn : r ≤ n
    · have h1 : 1 ≤ n / r := (Nat.one_le_div_iff hr).mpr hrn
      have hge : r ≤ n / r * r := Nat.le_mul_of_pos_left r h1
      have hocc : rtapi_clock_set_period r 0 n =
          (((n / r * r : Nat) : Int), n / r * r) := by
        simp only [rtapi_clock_set_period]
        rw [if_neg hn, if_neg hne0, if_neg (by omega)]
      rw [hocc]
      have h2 : n % r < r := Nat.mod_lt n hr
      have h3 : r * (n / r) + n % r = n := Nat.div_add_mod n r
      have h4 : n / r * r = r * (n / r) := Nat.mul_comm _ _
      exact ⟨rfl, dvd_mul_left r (n / r), hge,
        fun _ => ⟨rfl, Nat.div_mul_le_self n r, by omega⟩,
        fun hlt => absurd hrn (by omega)⟩
    · have hdiv : n / r = 0 := Nat.div_eq_of_lt (by omega)
      have hocc : rtapi_clock_set_period r 0 n = ((r : Int), r) := by
        simp only [rtapi_clock_set_period]
        rw [if_neg hn, if_neg hne0, hdiv]
        rw [if_pos (by omega)]
      rw [hocc]
      exact ⟨rfl, dvd_refl r, Nat.le_refl r,
        fun hc => absurd hc (by omega), fun _ => rfl⟩

/-- C6 witness: the theorem at resolution 1 ns and request 1000000 ns, as in
the spec's clock set-twice scenario. -/
theorem clock_set_period_spec_wit :
    rtapi_clock_set_period 1 1000000 0 = ((1000000 : Int), 1000000) ∧
    rtapi_clock_set_period 1 1000000 500000 = (-EINVAL, 1000000) ∧
    (rtapi_clock_set_period 1 0 1000000).2 = 1000000 := by
  have h := clock_set_period_spec 1 1000000 500000 (by decide) (by decide)
  refine ⟨h.1, h.2.1 (by decide) (by decide), by decide⟩

/-- C7 counterexample: the claim as stated is false for the linux flavor.
On a completely full module table, `rtapi_init` returns `-ENOMEM` (its
`result` is initialized to `-ENOMEM`, line 160), not `-EMFILE` as the claim
requires. -/
theorem full_table_init_enomem_cex :
    (rtapi_init module_array_full).1 ≠ -EMFILE ∧
    (rtapi_init module_array_full).1 = -ENOMEM := by decide

/-- C7 amended: on a full table the rt-preempt `_rtapi_init` returns
`-EMFILE`, but the linux `rtapi_init` returns `-ENOMEM` (first two
conjuncts).  When a free slot exists, both flavors succeed and the returned
handle equals the first free slot number plus `MODULE_OFFSET`: for the linux
flavor, if `m` is the first slot whose magic differs from `MODULE_MAGIC`,
the call returns exactly `m + MODULE_OFFSET` and tags that slot (third
conjunct, with the handle at least `MODULE_OFFSET`); for the rt-preempt
flavor, if `m4` in 1..mm4 is the first slot in `NO_MODULE` state, the call
returns exactly `m4 + MODULE_OFFSET`, strictly above `MODULE_OFFSET`
(fourth conjunct). -/
theorem init_full_and_offset_amended (marr marr2 : Array ModuleData)
    (mm cnt : Nat) (mname : Option String)
    (hfull : ∀ m, m < MAX_MODULES →
      (marr.getD m ModuleData.zero).magic = MODULE_MAGIC)
    (hfull2 : ∀ m, m < mm + 1 → 1 ≤ m →
      (marr2.getD m ModuleData.zero).state ≠ ModState.NO_MODULE) :
    rtapi_init marr = (-ENOMEM, marr) ∧
    (_rtapi_init mm mname marr2 cnt).1 = -EMFILE ∧
    (∀ (marr3 : Array ModuleData) (m : Nat),
      m < MAX_MODULES →
      (marr3.getD m ModuleData.zero).magic ≠ MODULE_MAGIC →
      (∀ k, k < m → (marr3.getD k ModuleData.zero).magic = MODULE_MAGIC) →
      rtapi_init marr3 =
        (((m : Int) + (MODULE_OFFSET : Int)),
         marr3.setD m
           { marr3.getD m ModuleData.zero with magic := MODULE_MAGIC }) ∧
      (MODULE_OFFSET : Int) ≤ (m : Int) + (MODULE_OFFSET : Int)) ∧
    (∀ (mm4 cnt4 : Nat) (mn4 : Option String) (marr4 : Array ModuleData)
        (m4 : Nat),
      1 ≤ m4 → m4 ≤ mm4 →
      (marr4.getD m4 ModuleData.zero).state = ModState.NO_MODULE →
      (∀ k, k < m4 → 1 ≤ k →
        (marr4.getD k ModuleData.zero).state ≠ ModState.NO_MODULE) →
      (_rtapi_init mm4 mn4 marr4 cnt4).1 =
        (m4 : Int) + (MODULE_OFFSET : Int) ∧
      (MODULE_OFFSET : Int) < (m4 : Int) + (MODULE_OFFSET : Int)) := by
  refine ⟨?_, ?_, ?_, ?_⟩
  · exact rtapi_init_scan_all_full marr (MAX_MODULES + 1) 0 hfull
  · have hscan : _rtapi_init_scan marr2 mm (mm + 1) 1 = mm + 1 :=
      _rtapi_init_scan_all_full marr2 mm hfull2 (mm + 1) 1 (Nat.le_refl 1)
        (by omega) (by omega)
    simp only [_rtapi_init]
    rw [hscan]
    rw [if_pos (by omega)]
  · intro marr3 m hmlt hfree hocc
    have hscan := rtapi_init_scan_first_free marr3 m hmlt hfree
      (MAX_MODULES + 1) 0 (Nat.zero_le m)
      (fun k _ hk2 => hocc k hk2) (by omega)
    exact ⟨hscan, by omega⟩
  · intro mm4 cnt4 mn4 marr4 m4 h1 hle hfree hocc
    have hscan := _rtapi_init_scan_first_free marr4 mm4 m4 hle hfree
      (mm4 + 1) 1 h1 (fun k hk1 hk2 => hocc k hk2 hk1) (by omega)
    simp only [_rtapi_init]
    rw [hscan]
    rw [if_neg (by omega)]
    constructor
    · rfl
    · omega

/-- C7 witness: the amended theorem at concrete tables: the full linux table
(all 64 magics set) gives `-ENOMEM`; a full rt-preempt table of capacity 2
gives `-EMFILE`; on the empty linux table the first free slot is 0 and the
handle is exactly 32768; on the empty rt-preempt table of capacity 2 the
first free slot is 1 and the handle is exactly 32769. -/
theorem init_full_and_offset_amended_wit :
    rtapi_init module_array_full = (-ENOMEM, module_array_full) ∧
    (_rtapi_init 2 none mod_full_small 0).1 = -EMFILE ∧
    rtapi_init module_array_zero =
      ((32768 : Int), module_array_zero.setD 0
        { module_array_zero.getD 0 ModuleData.zero with
          magic := MODULE_MAGIC }) ∧
    (_rtapi_init 2 none module_array_zero 0).1 = 32769 := by
  have h := init_full_and_offset_amended module_array_full mod_full_small 2 0
    none (by decide) (by decide)
  refine ⟨h.1, h.2.1, ?_, ?_⟩
  · have h3 := (h.2.2.1 module_array_zero 0 (by decide) (by decide)
      (by decide)).1
    rw [h3]
    decide
  · have h4 := (h.2.2.2 2 0 none module_array_zero 1 (by decide) (by decide)
      (by decide) (by decide)).1
    rw [h4]
    decide
